import Mathlib

/-!
Verification of the cline-sdlc pattern-scan-and-score pipeline.

Shallow embedding of the JavaScript sources:
  - src/unnamed/part_000        (sample utilities: validateEmail, Calculator)
  - src/scripts/ai-code-review.js   (AICodeReviewer: checkPatterns, calculateScore)
  - src/scripts/code-style-review.js (CodeStyleReviewer: calculateScore, modernization bonus)
  - src/unnamed/part_001        (PerformanceAnalyzer: checkPerformancePatterns, calculateScore)
  - src/unnamed/part_002        (MergeReadinessAssessor: read* helpers, check* steps,
                                 calculateReadiness)

Conventions: JavaScript numbers that only ever hold integers are modelled as Int
(scores, counts); file text is a list of characters; severities are the literal
strings the code compares against; mutation of `this` is modelled by explicit
state passing. Bounded recursion over text uses an explicit fuel argument that
is always instantiated large enough (at least the remaining text length), so the
functions compute exactly what the JavaScript loops compute.
-/

namespace SDLC

/-! ## part_000: sample utilities -/

/-- One entry of the Calculator history array: push({ operation, a, b, result }). -/
structure CalcEntry where
  operation : String
  a : Int
  b : Int
  result : Int
deriving Repr, DecidableEq

/-- The Calculator class state: this.history, initialised to []. -/
structure Calculator where
  history : List CalcEntry
deriving Repr, DecidableEq

/-- new Calculator(): constructor sets this.history = []. -/
def Calculator.new : Calculator := ⟨[]⟩

/-- Calculator.add(a, b): computes a + b, pushes a history entry, returns the result. -/
def Calculator.add (c : Calculator) (a b : Int) : Calculator × Int :=
  let result := a + b
  ({ history := c.history ++ [⟨"add", a, b, result⟩] }, result)

/-- Calculator.subtract(a, b): computes a - b, pushes a history entry, returns the result. -/
def Calculator.subtract (c : Calculator) (a b : Int) : Calculator × Int :=
  let result := a - b
  ({ history := c.history ++ [⟨"subtract", a, b, result⟩] }, result)

/-- Calculator.getHistory(): returns this.history. -/
def Calculator.getHistory (c : Calculator) : List CalcEntry := c.history

/-- Calculator.clearHistory(): sets this.history = []. -/
def Calculator.clearHistory (_c : Calculator) : Calculator := ⟨[]⟩

/-- Character class [^\s@] of the email regex: any character that is neither
whitespace nor the at sign. -/
def emailChar (c : Char) : Bool := !(c.isWhitespace || c == '@')

/-- Token of the tiny regex fragment needed for the email pattern: a literal
character, or a one-or-more repetition of a character class. -/
inductive Tok where
  | lit : Char → Tok
  | plus : (Char → Bool) → Tok

/-- Anchored backtracking matcher for a token sequence against a whole string,
with explicit fuel (structural recursion); fuel at least
tokens.length + text.length + 1 never runs out, which holds at every call site. -/
def tokMatchF : Nat → List Tok → List Char → Bool
  | 0, _, _ => false
  | _ + 1, [], xs => xs.isEmpty
  | _ + 1, Tok.lit _ :: _, [] => false
  | f + 1, Tok.lit c :: ts, x :: xs => (x == c) && tokMatchF f ts xs
  | _ + 1, Tok.plus _ :: _, [] => false
  | f + 1, Tok.plus p :: ts, x :: xs =>
      p x && (tokMatchF f ts xs || tokMatchF f (Tok.plus p :: ts) xs)

/-- The email regex of part_000 line 36, which is anchored on both sides:
one or more [^\s@], then @, then one or more [^\s@], then a literal dot,
then one or more [^\s@]. -/
def emailTok : List Tok :=
  [Tok.plus emailChar, Tok.lit '@', Tok.plus emailChar, Tok.lit '.', Tok.plus emailChar]

/-- validateEmail(email): emailRegex.test(email) for the anchored regex above. -/
def validateEmail (s : String) : Bool :=
  tokMatchF (emailTok.length + s.data.length + 1) emailTok s.data

/-! ## Score aggregators

Each calculateScore walks the collected issue list, subtracting a fixed penalty
per severity (a switch statement with no default case: unknown severities
subtract nothing), adds a capped bonus, and clamps. Only the severity strings
matter to the score, so the issue lists are modelled as lists of severities. -/

/-- Per-issue deduction of AICodeReviewer.calculateScore (ai-code-review.js
lines 270-282): high 10, medium 5, low 2, anything else 0. -/
def crSeverityPenalty (s : String) : Int :=
  if s == "high" then 10 else if s == "medium" then 5 else if s == "low" then 2 else 0

/-- AICodeReviewer.calculateScore: start at 100, deduct per issue, add
Math.min(positives.length * 2, 20), clamp with Math.max(0, Math.min(100, score)). -/
def crCalculateScore (issues : List String) (positivesCount : Nat) : Int :=
  let base := issues.foldl (fun sc sev => sc - crSeverityPenalty sev) (100 : Int)
  let score := base + min ((positivesCount : Int) * 2) 20
  max 0 (min 100 score)

/-- Per-issue deduction of PerformanceAnalyzer.calculateScore (part_001
lines 200-212): critical 15, high 8, medium 3, anything else 0. -/
def perfSeverityPenalty (s : String) : Int :=
  if s == "critical" then 15 else if s == "high" then 8 else if s == "medium" then 3 else 0

/-- PerformanceAnalyzer.calculateScore: start at 100, deduct per issue, add
Math.min(optimizations.length * 2, 15), clamp to [0, 100]. -/
def perfCalculateScore (issues : List String) (optimizationsCount : Nat) : Int :=
  let base := issues.foldl (fun sc sev => sc - perfSeverityPenalty sev) (100 : Int)
  let score := base + min ((optimizationsCount : Int) * 2) 15
  max 0 (min 100 score)

/-- Per-violation deduction of CodeStyleReviewer.calculateScore
(code-style-review.js lines 295-307): high 10, medium 5, low 2, anything else 0. -/
def styleSeverityPenalty (s : String) : Int :=
  if s == "high" then 10 else if s == "medium" then 5 else if s == "low" then 2 else 0

/-- The five numbers CodeStyleReviewer.calculateModernizationBonus looks up on
this.results.metrics with a zero default for an absent key; in the actual driver
the keys it uses (const, let, var, functions, arrowFunctions) are never set
before calculateScore runs, so every field is 0 there, but the function is
modelled over arbitrary counts. -/
structure StyleMetricsLookup where
  constCount : Nat
  letCount : Nat
  varCount : Nat
  functionsCount : Nat
  arrowFunctionsCount : Nat
deriving Repr, DecidableEq

/-- CodeStyleReviewer.calculateModernizationBonus: Math.floor of
(const + let + arrowFunctions) / (const + let + var + functions + 1) * 10,
which on natural-number counts is the integer quotient below. -/
def calculateModernizationBonus (m : StyleMetricsLookup) : Nat :=
  ((m.constCount + m.letCount + m.arrowFunctionsCount) * 10) /
    (m.constCount + m.letCount + m.varCount + m.functionsCount + 1)

/-- CodeStyleReviewer.calculateScore: start at 100, deduct per violation, add
Math.min(modernFiles * 5, 20), clamp to [0, 100]. -/
def styleCalculateScore (violations : List String) (m : StyleMetricsLookup) : Int :=
  let base := violations.foldl (fun sc sev => sc - styleSeverityPenalty sev) (100 : Int)
  let score := base + min ((calculateModernizationBonus m : Int) * 5) 20
  max 0 (min 100 score)

/-! ## Pattern scanner (AICodeReviewer.checkPatterns, ai-code-review.js 156-177,
and PerformanceAnalyzer.checkPerformancePatterns, part_001 118-138)

The JavaScript runs content.match(new RegExp(pattern, g)) to obtain the array of
matched substrings, then for EACH element recomputes an offset with
content.indexOf(matchedText) and derives the line number from the text before
that offset. Patterns are modelled as literal strings: a regex without
metacharacters matches exactly the occurrences of its own text, which is enough
to express the contract (the production rule console\.log\s*\( matches the text
console.log( this way). The line-number computation, where the claim bites, is
modelled verbatim. -/

/-- Offsets of the global (leftmost, non-overlapping) occurrences of pat in the
remaining text, the way a g-flagged regex advances lastIndex past each match.
Fuel is structural; fuel at least the remaining length never runs out. -/
def occurrencesAux (pat : List Char) : Nat → List Char → Nat → List Nat
  | 0, _, _ => []
  | _ + 1, [], _ => []
  | f + 1, x :: xs, i =>
    if pat.isPrefixOf (x :: xs) then
      i :: occurrencesAux pat f (List.drop (pat.length - 1) xs) (i + pat.length)
    else
      occurrencesAux pat f xs (i + 1)

/-- Start offsets of all global matches of pat within content. -/
def occurrences (content pat : List Char) : List Nat :=
  occurrencesAux pat content.length content 0

/-- JavaScript String.indexOf for a substring: offset of the first occurrence,
none when absent (the JavaScript -1). -/
def indexOfSubAux (pat : List Char) : List Char → Nat → Option Nat
  | [], i => if pat.isEmpty then some i else none
  | x :: xs, i =>
    if pat.isPrefixOf (x :: xs) then some i else indexOfSubAux pat xs (i + 1)

/-- content.indexOf(pat) as an Option. -/
def indexOfSub (content pat : List Char) : Option Nat :=
  indexOfSubAux pat content 0

/-- Line number derived from a start offset: the code takes
content.substring(0, offset).split(newline).length, which is one plus the
number of newline characters before the offset. -/
def lineOfOffset (content : List Char) (off : Nat) : Nat :=
  (content.take off).count '\n' + 1

/-- One scanning rule: the matched text of its pattern, plus the severity and
message recorded on every hit. -/
structure PatternRule where
  pat : List Char
  severity : String
  message : String
deriving Repr, DecidableEq

/-- One entry pushed into the issues array per match occurrence. -/
structure ScanIssue where
  severity : String
  message : String
  line : Nat
deriving Repr, DecidableEq

/-- Inner loop of checkPatterns for a single rule: one issue is pushed per
element of the match array, but the line number of every element is computed
from content.indexOf(matchedText), the offset of the FIRST occurrence of the
matched text (the getD 0 branch is unreachable, since a match exists whenever
the loop body runs). -/
def checkPatternsRule (content : List Char) (r : PatternRule) : List ScanIssue :=
  (occurrences content r.pat).map (fun _ =>
    { severity := r.severity
      message := r.message
      line := lineOfOffset content ((indexOfSub content r.pat).getD 0) })

/-- Outer loop of checkPatterns: rules in list order, pushing into one array. -/
def checkPatterns (content : List Char) : List PatternRule → List ScanIssue
  | [] => []
  | r :: rs => checkPatternsRule content r ++ checkPatterns content rs

/-! ## MergeReadinessAssessor (part_002)

The assessment object is { ready, score, blockers, warnings, checks }; the
checks sub-records are stored but never read by calculateReadiness, which
depends only on the blockers and warnings. Reading a JSON artifact from disk is
modelled by an Option of the already-extracted field record: some r when the
file exists and parses (each field extracted with a zero default), none when it
is absent or unreadable. -/

/-- A blocker entry { type, message, severity }. -/
structure Blocker where
  type : String
  message : String
  severity : String
deriving Repr, DecidableEq

/-- A warning entry { type, message, severity }. -/
structure Warning where
  type : String
  message : String
  severity : String
deriving Repr, DecidableEq

/-- Record returned by readTestResults (part_002 265-288). -/
structure TestResults where
  successRate : Int
  coverage : Int
  failedTests : Int
  skippedTests : Int
  lastRun : Option String
deriving Repr, DecidableEq

/-- readTestResults: fields of test-analysis-report.json when present, otherwise
the all-zero default record with a null lastRun. -/
def readTestResults : Option TestResults → TestResults
  | some r => r
  | none => ⟨0, 0, 0, 0, none⟩

/-- Fields extracted from code-style-review-results.json: the lengths of the
high and medium severity buckets and the score. -/
structure StyleReport where
  highCount : Nat
  mediumCount : Nat
  score : Int
deriving Repr, DecidableEq

/-- Record returned by readCodeQualityResults (part_002 290-311). -/
structure CodeQualityResults where
  criticalIssues : Int
  highIssues : Int
  styleScore : Int
  lintErrors : Int
deriving Repr, DecidableEq

/-- readCodeQualityResults: when the style report is present, criticalIssues is
the length of its high bucket and highIssues the length of its medium bucket,
with lintErrors hardcoded to 0; all zero when absent. -/
def readCodeQualityResults : Option StyleReport → CodeQualityResults
  | some r => ⟨(r.highCount : Int), (r.mediumCount : Int), r.score, 0⟩
  | none => ⟨0, 0, 0, 0⟩

/-- Fields extracted from security-scan-results.json. -/
structure SecurityReport where
  criticalCount : Nat
  highCount : Nat
  score : Int
deriving Repr, DecidableEq

/-- Record returned by readSecurityResults (part_002 313-334). -/
structure SecurityResults where
  criticalVulnerabilities : Int
  highVulnerabilities : Int
  securityScore : Int
  dependencyIssues : Int
deriving Repr, DecidableEq

/-- readSecurityResults: extracted fields when present (dependencyIssues
hardcoded to 0), all zero when absent. -/
def readSecurityResults : Option SecurityReport → SecurityResults
  | some r => ⟨(r.criticalCount : Int), (r.highCount : Int), r.score, 0⟩
  | none => ⟨0, 0, 0, 0⟩

/-- Fields extracted from performance-analysis-results.json. -/
structure PerfReport where
  criticalCount : Nat
  score : Int
deriving Repr, DecidableEq

/-- Record returned by readPerformanceResults (part_002 336-355). -/
structure PerformanceResults where
  criticalIssues : Int
  performanceScore : Int
  regressions : Int
deriving Repr, DecidableEq

/-- readPerformanceResults: extracted fields when present (regressions hardcoded
to 0), all zero when absent. -/
def readPerformanceResults : Option PerfReport → PerformanceResults
  | some r => ⟨(r.criticalCount : Int), r.score, 0⟩
  | none => ⟨0, 0, 0⟩

/-- Record returned by readDocumentationResults (part_002 357-366): it reads no
file and returns this fixed stub. -/
structure DocumentationResults where
  readmeUpdated : Bool
  apiDocsUpdated : Bool
  changelogUpdated : Bool
  breakingChanges : Int
deriving Repr, DecidableEq

/-- readDocumentationResults: the hardcoded stub record. -/
def readDocumentationResults : DocumentationResults :=
  ⟨true, true, false, 0⟩

/-- Record returned by readApprovalStatus (part_002 368-379): it reads no file
and returns this fixed stub. -/
structure ApprovalStatus where
  hasRequiredApprovals : Bool
  currentApprovals : Int
  requiredApprovals : Int
  requestedChanges : Int
  unresolvedDiscussions : Int
  ciStatus : String
deriving Repr, DecidableEq

/-- readApprovalStatus: the hardcoded stub record, with hasRequiredApprovals
always false. -/
def readApprovalStatus : ApprovalStatus :=
  ⟨false, 0, 2, 0, 0, "passed"⟩

/-- Boolean checks recorded by checkTestResults; the time-dependent recentTests
comparison against Date.now() is abstracted as the input flag recent. -/
structure TestChecks where
  allTestsPassing : Bool
  sufficientCoverage : Bool
  noSkippedTests : Bool
  recentTests : Bool
deriving Repr, DecidableEq

/-- checks record of checkTestResults (part_002 54-60). -/
def testChecksOf (t : TestResults) (recent : Bool) : TestChecks :=
  ⟨t.successRate == 100, decide (80 ≤ t.coverage), t.skippedTests == 0,
    t.lastRun.isSome && recent⟩

/-- Blockers pushed by checkTestResults (part_002 62-76): a critical
test-failure blocker unless successRate is exactly 100, and a high coverage
blocker unless coverage is at least 80. -/
def testBlockers (t : TestResults) (recent : Bool) : List Blocker :=
  (if !(testChecksOf t recent).allTestsPassing then
    [⟨"test-failure", "Tests are failing (" ++ toString t.failedTests ++ " failed)",
      "critical"⟩]
   else []) ++
  (if !(testChecksOf t recent).sufficientCoverage then
    [⟨"coverage", "Insufficient test coverage (" ++ toString t.coverage ++ "%)", "high"⟩]
   else [])

/-- Warnings pushed by checkTestResults (part_002 78-84). -/
def testWarnings (t : TestResults) : List Warning :=
  if 0 < t.skippedTests then
    [⟨"skipped-tests", toString t.skippedTests ++ " tests are skipped", "low"⟩]
  else []

/-- checks record of checkCodeQuality (part_002 92-97). -/
structure CodeQualityChecks where
  noCriticalIssues : Bool
  noHighIssues : Bool
  acceptableStyleScore : Bool
  noLintErrors : Bool
deriving Repr, DecidableEq

/-- checks record of checkCodeQuality. -/
def codeQualityChecksOf (q : CodeQualityResults) : CodeQualityChecks :=
  ⟨q.criticalIssues == 0, q.highIssues == 0, decide (70 ≤ q.styleScore), q.lintErrors == 0⟩

/-- Blockers pushed by checkCodeQuality (part_002 99-113). -/
def codeQualityBlockers (q : CodeQualityResults) : List Blocker :=
  (if !(codeQualityChecksOf q).noCriticalIssues then
    [⟨"critical-issues", toString q.criticalIssues ++ " critical code quality issues",
      "critical"⟩]
   else []) ++
  (if !(codeQualityChecksOf q).noHighIssues then
    [⟨"high-issues", toString q.highIssues ++ " high-priority code quality issues",
      "high"⟩]
   else [])

/-- Warnings pushed by checkCodeQuality (part_002 115-121). -/
def codeQualityWarnings (q : CodeQualityResults) : List Warning :=
  if !(codeQualityChecksOf q).acceptableStyleScore then
    [⟨"style-score", "Code style score is " ++ toString q.styleScore ++ "/100", "medium"⟩]
  else []

/-- checks record of checkSecurity (part_002 129-134). -/
structure SecurityChecks where
  noCriticalVulns : Bool
  noHighVulns : Bool
  securityScore : Bool
  dependenciesSecure : Bool
deriving Repr, DecidableEq

/-- checks record of checkSecurity. -/
def securityChecksOf (s : SecurityResults) : SecurityChecks :=
  ⟨s.criticalVulnerabilities == 0, s.highVulnerabilities == 0,
    decide (80 ≤ s.securityScore), s.dependencyIssues == 0⟩

/-- Blockers pushed by checkSecurity (part_002 136-150). -/
def securityBlockers (s : SecurityResults) : List Blocker :=
  (if !(securityChecksOf s).noCriticalVulns then
    [⟨"security-critical",
      toString s.criticalVulnerabilities ++ " critical security vulnerabilities",
      "critical"⟩]
   else []) ++
  (if !(securityChecksOf s).noHighVulns then
    [⟨"security-high",
      toString s.highVulnerabilities ++ " high-priority security vulnerabilities",
      "high"⟩]
   else [])

/-- Warnings pushed by checkSecurity (part_002 152-158). -/
def securityWarnings (s : SecurityResults) : List Warning :=
  if !(securityChecksOf s).securityScore then
    [⟨"security-score", "Security score is " ++ toString s.securityScore ++ "/100",
      "high"⟩]
  else []

/-- checks record of checkPerformance (part_002 166-170). -/
structure PerformanceChecks where
  noCriticalPerfIssues : Bool
  performanceScore : Bool
  noRegressions : Bool
deriving Repr, DecidableEq

/-- checks record of checkPerformance. -/
def performanceChecksOf (p : PerformanceResults) : PerformanceChecks :=
  ⟨p.criticalIssues == 0, decide (70 ≤ p.performanceScore), p.regressions == 0⟩

/-- Blockers pushed by checkPerformance (part_002 172-178): note the severity is
high, not critical. -/
def performanceBlockers (p : PerformanceResults) : List Blocker :=
  if !(performanceChecksOf p).noCriticalPerfIssues then
    [⟨"performance-critical", toString p.criticalIssues ++ " critical performance issues",
      "high"⟩]
  else []

/-- Warnings pushed by checkPerformance (part_002 180-186). -/
def performanceWarnings (p : PerformanceResults) : List Warning :=
  if !(performanceChecksOf p).performanceScore then
    [⟨"performance-score", "Performance score is " ++ toString p.performanceScore ++ "/100",
      "medium"⟩]
  else []

/-- checks record of checkDocumentation (part_002 194-199). -/
structure DocumentationChecks where
  readmeUpdated : Bool
  apiDocsUpdated : Bool
  changelogUpdated : Bool
  noBreakingChanges : Bool
deriving Repr, DecidableEq

/-- checks record of checkDocumentation. -/
def documentationChecksOf (d : DocumentationResults) : DocumentationChecks :=
  ⟨d.readmeUpdated, d.apiDocsUpdated, d.changelogUpdated, d.breakingChanges == 0⟩

/-- Blockers pushed by checkDocumentation (part_002 209-215). -/
def documentationBlockers (d : DocumentationResults) : List Blocker :=
  if 0 < d.breakingChanges then
    [⟨"breaking-changes",
      toString d.breakingChanges ++ " breaking changes detected - requires additional review",
      "high"⟩]
  else []

/-- Warnings pushed by checkDocumentation (part_002 201-207). -/
def documentationWarnings (d : DocumentationResults) : List Warning :=
  if !d.readmeUpdated then
    [⟨"documentation", "README may need updates for new features", "low"⟩]
  else []

/-- checks record of checkApprovals (part_002 223-228). -/
structure ApprovalChecks where
  hasRequiredApprovals : Bool
  noRequestedChanges : Bool
  discussionsResolved : Bool
  ciPassed : Bool
deriving Repr, DecidableEq

/-- checks record of checkApprovals. -/
def approvalChecksOf (a : ApprovalStatus) : ApprovalChecks :=
  ⟨a.hasRequiredApprovals, a.requestedChanges == 0, a.unresolvedDiscussions == 0,
    a.ciStatus == "passed"⟩

/-- Blockers pushed by checkApprovals (part_002 230-252), in push order:
approvals (high), requested-changes (critical), ci-failure (critical). -/
def approvalBlockers (a : ApprovalStatus) : List Blocker :=
  (if !(approvalChecksOf a).hasRequiredApprovals then
    [⟨"approvals",
      "Insufficient approvals (" ++ toString a.currentApprovals ++ "/" ++
        toString a.requiredApprovals ++ ")",
      "high"⟩]
   else []) ++
  (if !(approvalChecksOf a).noRequestedChanges then
    [⟨"requested-changes",
      toString a.requestedChanges ++ " requested changes need to be addressed",
      "critical"⟩]
   else []) ++
  (if !(approvalChecksOf a).ciPassed then
    [⟨"ci-failure", "CI checks are failing", "critical"⟩]
   else [])

/-- Warnings pushed by checkApprovals (part_002 254-260). -/
def approvalWarnings (a : ApprovalStatus) : List Warning :=
  if !(approvalChecksOf a).discussionsResolved then
    [⟨"discussions", toString a.unresolvedDiscussions ++ " unresolved discussions",
      "medium"⟩]
  else []

/-- The assessment state that calculateReadiness reads and writes; the stored
checks sub-records are carried separately since no later step reads them. -/
structure Assessment where
  ready : Bool
  score : Int
  blockers : List Blocker
  warnings : List Warning
deriving Repr, DecidableEq

/-- Per-blocker deduction of calculateReadiness (part_002 385-400): critical 30,
high 20, medium 10, low 5, anything else 0. -/
def blockerPenalty (s : String) : Int :=
  if s == "critical" then 30 else if s == "high" then 20
  else if s == "medium" then 10 else if s == "low" then 5 else 0

/-- Per-warning deduction of calculateReadiness (part_002 402-415): high 5,
medium 3, low 1, anything else 0. -/
def warningPenalty (s : String) : Int :=
  if s == "high" then 5 else if s == "medium" then 3 else if s == "low" then 1 else 0

/-- calculateReadiness (part_002 381-419): start at 100, deduct per blocker and
per warning, floor the score at 0 with Math.max, and set ready to
(blockers.length === 0 AND score >= 80) using the floored score. -/
def calculateReadiness (a : Assessment) : Assessment :=
  let s1 := a.blockers.foldl (fun sc b => sc - blockerPenalty b.severity) (100 : Int)
  let s2 := a.warnings.foldl (fun sc w => sc - warningPenalty w.severity) s1
  let finalScore := max 0 s2
  { a with score := finalScore
           ready := (a.blockers.length == 0) && decide (80 ≤ finalScore) }

/-- runAllChecks followed by calculateReadiness (assess, part_002 22-49), as a
function of the four optional on-disk artifacts and the abstracted recency flag;
readDocumentationResults and readApprovalStatus are the fixed stubs. Report
generation is omitted as pure output. -/
def assess (tIn : Option TestResults) (qIn : Option StyleReport)
    (sIn : Option SecurityReport) (pIn : Option PerfReport) (recent : Bool) : Assessment :=
  let t := readTestResults tIn
  let q := readCodeQualityResults qIn
  let s := readSecurityResults sIn
  let p := readPerformanceResults pIn
  let d := readDocumentationResults
  let a := readApprovalStatus
  calculateReadiness
    { ready := false
      score := 0
      blockers := testBlockers t recent ++ codeQualityBlockers q ++ securityBlockers s ++
        performanceBlockers p ++ documentationBlockers d ++ approvalBlockers a
      warnings := testWarnings t ++ codeQualityWarnings q ++ securityWarnings s ++
        performanceWarnings p ++ documentationWarnings d ++ approvalWarnings a }

/-- Concrete file text with two occurrences of the same matched text on two
different lines, as produced by the production rule matching console.log
invocations. -/
def demoContent : List Char := ("console.log(a)\nconsole.log(b)").data

/-- The console.log rule of ai-code-review.js (performanceIssues, line 33),
whose matched text is the same string at every occurrence. -/
def demoRule : PatternRule :=
  ⟨("console.log(").data, "low", "console.log() detected - remove in production"⟩

/-! ## Shared lemmas -/

/-- Folding a subtraction of nonnegative penalties never raises the accumulator. -/
lemma foldl_sub_penalty_le {α : Type} (f : α → Int) (hf : ∀ x, 0 ≤ f x) :
    ∀ (l : List α) (init : Int), l.foldl (fun sc x => sc - f x) init ≤ init := by
  intro l
  induction l with
  | nil => intro init; exact le_refl _
  | cons a l ih =>
    intro init
    calc (a :: l).foldl (fun sc x => sc - f x) init
        = l.foldl (fun sc x => sc - f x) (init - f a) := rfl
      _ ≤ init - f a := ih _
      _ ≤ init := by have := hf a; omega

/-- Every blocker deduction is nonnegative. -/
lemma blockerPenalty_nonneg (s : String) : 0 ≤ blockerPenalty s := by
  simp only [blockerPenalty]
  split <;> [omega; split <;> [omega; split <;> [omega; split <;> omega]]]

/-- Every warning deduction is nonnegative. -/
lemma warningPenalty_nonneg (s : String) : 0 ≤ warningPenalty s := by
  simp only [warningPenalty]
  split <;> [omega; split <;> [omega; split <;> omega]]

/-- The readiness verdict is false whenever the blockers list is nonempty. -/
lemma ready_false_of_blockers_ne_nil (a : Assessment) (h : a.blockers ≠ []) :
    (calculateReadiness a).ready = false := by
  have hlen : a.blockers.length ≠ 0 := fun hl => h (List.length_eq_zero.mp hl)
  simp only [calculateReadiness]
  simp [hlen]

/-- The first global occurrence is exactly what String.indexOf finds: for a
nonempty pattern and sufficient fuel, indexOf equals the head of the
occurrence-offset list. -/
lemma indexOfSubAux_eq_head (pat : List Char) (hpat : pat ≠ []) :
    ∀ (l : List Char) (fuel i : Nat), l.length ≤ fuel →
      indexOfSubAux pat l i = (occurrencesAux pat fuel l i).head? := by
  intro l
  induction l with
  | nil =>
    intro fuel i _
    cases fuel <;> simp [indexOfSubAux, occurrencesAux, List.isEmpty_iff, hpat]
  | cons x xs ih =>
    intro fuel i hle
    cases fuel with
    | zero => simp at hle
    | succ f =>
      by_cases hp : pat.isPrefixOf (x :: xs)
      · simp [indexOfSubAux, occurrencesAux, hp]
      · simp only [indexOfSubAux, occurrencesAux, hp, if_false]
        exact ih f (i + 1) (Nat.le_of_succ_le_succ hle)

/-- content.indexOf(pat) is the first element of the global occurrence list. -/
lemma indexOfSub_eq_head (content pat : List Char) (hpat : pat ≠ []) :
    indexOfSub content pat = (occurrences content pat).head? :=
  indexOfSubAux_eq_head pat hpat content content.length 0 le_rfl

/-! ## Claim theorems -/

/-- C1: after calculateReadiness, ready is true if and only if the blockers list
is empty and the computed score is at least 80; and any assessment whose
blockers contain a critical-severity entry has ready false regardless of the
numeric score. -/
theorem calculateReadiness_ready_iff :
    ∀ (a : Assessment),
      ((calculateReadiness a).ready = true ↔
        ((calculateReadiness a).blockers = [] ∧ 80 ≤ (calculateReadiness a).score)) ∧
      (∀ b ∈ a.blockers, b.severity = "critical" →
        (calculateReadiness a).ready = false) := by
  intro a
  constructor
  · simp only [calculateReadiness, Bool.and_eq_true, beq_iff_eq,
      List.length_eq_zero, decide_eq_true_eq]
  · intro b hb _
    exact ready_false_of_blockers_ne_nil a (List.ne_nil_of_mem hb)

/-- Witness for C1 at a concrete assessment holding one critical blocker. -/
theorem calculateReadiness_ready_iff_witness :
    (calculateReadiness
      ⟨false, 0, [⟨"ci-failure", "CI checks are failing", "critical"⟩], []⟩).ready
      = false :=
  (calculateReadiness_ready_iff
      ⟨false, 0, [⟨"ci-failure", "CI checks are failing", "critical"⟩], []⟩).2
    ⟨"ci-failure", "CI checks are failing", "critical"⟩ (by simp) rfl

/-- C2: every aggregator score, for every input, is an integer in [0, 100]:
the code-review, style-review and performance calculateScore functions and the
merge-readiness calculateReadiness score. -/
theorem aggregator_scores_within_bounds :
    (∀ (issues : List String) (positivesCount : Nat),
      0 ≤ crCalculateScore issues positivesCount ∧
        crCalculateScore issues positivesCount ≤ 100) ∧
    (∀ (violations : List String) (m : StyleMetricsLookup),
      0 ≤ styleCalculateScore violations m ∧ styleCalculateScore violations m ≤ 100) ∧
    (∀ (issues : List String) (optimizationsCount : Nat),
      0 ≤ perfCalculateScore issues optimizationsCount ∧
        perfCalculateScore issues optimizationsCount ≤ 100) ∧
    (∀ (a : Assessment),
      0 ≤ (calculateReadiness a).score ∧ (calculateReadiness a).score ≤ 100) := by
  refine ⟨fun issues pos => ?_, fun violations m => ?_, fun issues opt => ?_, fun a => ?_⟩
  · simp only [crCalculateScore]
    omega
  · simp only [styleCalculateScore]
    omega
  · simp only [perfCalculateScore]
    omega
  · simp only [calculateReadiness]
    have h1 := foldl_sub_penalty_le (fun b : Blocker => blockerPenalty b.severity)
      (fun b => blockerPenalty_nonneg b.severity) a.blockers (100 : Int)
    have h2 := foldl_sub_penalty_le (fun w : Warning => warningPenalty w.severity)
      (fun w => warningPenalty_nonneg w.severity) a.warnings
      (a.blockers.foldl (fun sc b => sc - blockerPenalty b.severity) (100 : Int))
    constructor
    · simp
    · simp
      omega

/-- C5: an input with exactly one critical-severity match and no bonus signals
scores 100 minus the critical deduction of the script: 85 for the performance
analyzer (critical deducts 15); the code-review switch has no critical case, so
its critical deduction is 0 and the score stays 100. -/
theorem single_critical_match_score :
    perfCalculateScore ["critical"] 0 = 85 ∧
    perfCalculateScore ["critical"] 0 = 100 - perfSeverityPenalty "critical" ∧
    crCalculateScore ["critical"] 0 = 100 - crSeverityPenalty "critical" ∧
    crSeverityPenalty "critical" = 0 := by
  refine ⟨by decide, by decide, by decide, by decide⟩

/-- C6: the code-review aggregator with zero issues and zero positives yields
exactly the baseline score of 100. -/
theorem code_review_baseline_score : crCalculateScore [] 0 = 100 := by decide

/-- C7: from a fresh Calculator, add(2,3) then subtract(5,2) gives a history of
length 2 with operations add then subtract, and clearHistory always resets the
history length to 0. -/
theorem calculator_history_behavior :
    ((((Calculator.new.add 2 3).1.subtract 5 2).1.getHistory.length = 2 ∧
      (((Calculator.new.add 2 3).1.subtract 5 2).1.getHistory.map CalcEntry.operation =
        ["add", "subtract"]))) ∧
    ∀ c : Calculator, c.clearHistory.getHistory.length = 0 :=
  ⟨⟨rfl, rfl⟩, fun _ => rfl⟩

set_option maxHeartbeats 1000000 in
/-- C8: validateEmail accepts user@example.com and rejects not-an-email and
@domain.com. -/
theorem validateEmail_examples :
    validateEmail "user@example.com" = true ∧
    validateEmail "not-an-email" = false ∧
    validateEmail "@domain.com" = false := by
  refine ⟨by decide, by decide, by decide⟩

/-- C9: the pattern scanner and the score aggregation are deterministic: equal
inputs produce equal match sequences and equal scores. -/
theorem scanner_and_score_deterministic :
    (∀ (c₁ c₂ : List Char) (rules : List PatternRule), c₁ = c₂ →
      checkPatterns c₁ rules = checkPatterns c₂ rules) ∧
    (∀ (v₁ v₂ : List String) (m₁ m₂ : StyleMetricsLookup), v₁ = v₂ → m₁ = m₂ →
      styleCalculateScore v₁ m₁ = styleCalculateScore v₂ m₂) :=
  ⟨fun _ _ _ h => h ▸ rfl, fun _ _ _ _ hv hm => hv ▸ hm ▸ rfl⟩

/-- Witness for C9 at a concrete content, rule and violation list. -/
theorem scanner_and_score_deterministic_witness :
    checkPatterns ("var x = 1;").data [⟨("var ").data, "low", "var keyword detected"⟩] =
      checkPatterns ("var x = 1;").data [⟨("var ").data, "low", "var keyword detected"⟩] ∧
    styleCalculateScore ["medium"] ⟨0, 0, 0, 0, 0⟩ =
      styleCalculateScore ["medium"] ⟨0, 0, 0, 0, 0⟩ :=
  ⟨scanner_and_score_deterministic.1 _ _ _ rfl,
    scanner_and_score_deterministic.2 _ _ _ _ rfl rfl⟩

/-- C10: every run of the merge readiness assessment yields ready false, since
readApprovalStatus hardcodes hasRequiredApprovals to false and checkApprovals
therefore always pushes an approvals blocker. -/
theorem assess_never_ready :
    ∀ (tIn : Option TestResults) (qIn : Option StyleReport) (sIn : Option SecurityReport)
      (pIn : Option PerfReport) (recent : Bool),
      (assess tIn qIn sIn pIn recent).ready = false := by
  intro tIn qIn sIn pIn recent
  simp only [assess]
  apply ready_false_of_blockers_ne_nil
  intro hnil
  have hlen := congrArg List.length hnil
  simp only [List.length_append, List.length_nil] at hlen
  rw [show (approvalBlockers readApprovalStatus).length = 1 from rfl] at hlen
  omega

set_option maxHeartbeats 1000000 in
/-- C3 counterexample: on text with two occurrences of the same matched text,
the scanner emits both entries with the line of the FIRST occurrence (line 1),
while one plus the newline count before the second occurrence (offset 15) is
line 2, so the emitted lines differ from the per-occurrence lines. -/
theorem checkPatterns_line_counterexample :
    occurrences demoContent demoRule.pat = [0, 15] ∧
    (checkPatternsRule demoContent demoRule).map ScanIssue.line = [1, 1] ∧
    (occurrences demoContent demoRule.pat).map (lineOfOffset demoContent) = [1, 2] ∧
    (checkPatternsRule demoContent demoRule).map ScanIssue.line ≠
      (occurrences demoContent demoRule.pat).map (lineOfOffset demoContent) := by
  refine ⟨by decide, by decide, by decide, by decide⟩

/-- C3 amended: the scanner emits one entry per occurrence per rule, and every
emitted entry carries the line number of the first occurrence in the text of
that entry's matched text, computed as one plus the newline count before that
first occurrence (not the occurrence the entry stands for). -/
theorem checkPatterns_entries_amended :
    ∀ (content : List Char) (rules : List PatternRule),
      ((checkPatterns content rules).length =
        (rules.map fun r => (occurrences content r.pat).length).sum) ∧
      (∀ r : PatternRule, r.pat ≠ [] →
        ∀ issue ∈ checkPatternsRule content r,
          issue.line = lineOfOffset content ((occurrences content r.pat).headD 0)) := by
  intro content rules
  constructor
  · induction rules with
    | nil => simp [checkPatterns]
    | cons r rs ih => simp [checkPatterns, checkPatternsRule, ih]
  · intro r hpat issue hmem
    simp only [checkPatternsRule, List.mem_map] at hmem
    obtain ⟨o, _, rfl⟩ := hmem
    dsimp only
    congr 1
    rw [indexOfSub_eq_head content r.pat hpat]
    cases occurrences content r.pat <;> simp

set_option maxHeartbeats 1000000 in
/-- Witness for C3 amended at the demo content and rule: the emitted entry has
the line of the first occurrence of its matched text. -/
theorem checkPatterns_entries_amended_witness :
    (⟨"low", "console.log() detected - remove in production", 1⟩ : ScanIssue).line =
      lineOfOffset demoContent ((occurrences demoContent demoRule.pat).headD 0) :=
  (checkPatterns_entries_amended demoContent [demoRule]).2 demoRule (by decide)
    ⟨"low", "console.log() detected - remove in production", 1⟩ (by decide)

/-- C4 counterexample: two of the read helpers return records whose fields are
not all zero or false: the documentation stub reports readmeUpdated and
apiDocsUpdated as true, and the approval stub reports requiredApprovals 2 and
ciStatus passed. -/
theorem read_helpers_counterexample :
    readDocumentationResults.readmeUpdated = true ∧
    readDocumentationResults.apiDocsUpdated = true ∧
    readApprovalStatus.requiredApprovals = 2 ∧
    readApprovalStatus.ciStatus = "passed" :=
  ⟨rfl, rfl, rfl, rfl⟩

set_option maxHeartbeats 1000000 in
/-- C4 amended: when an upstream JSON artifact is absent, each of the four
artifact readers returns the all-zero (or null) default record, and the
assessment run on entirely absent artifacts still completes, producing a
definite score (19) and verdict instead of failing. -/
theorem read_helpers_defaults_amended :
    readTestResults none = ⟨0, 0, 0, 0, none⟩ ∧
    readCodeQualityResults none = ⟨0, 0, 0, 0⟩ ∧
    readSecurityResults none = ⟨0, 0, 0, 0⟩ ∧
    readPerformanceResults none = ⟨0, 0, 0⟩ ∧
    ∀ recent : Bool,
      (assess none none none none recent).score = 19 ∧
      (assess none none none none recent).ready = false := by
  refine ⟨rfl, rfl, rfl, rfl, fun recent => ?_⟩
  cases recent <;> exact ⟨by decide, by decide⟩

end SDLC
